import Mathlib

/-!
Shallow embedding of src/src/program/tic-tac-toe.js: the TicTacToe client
class that mirrors the on-chain tic-tac-toe game state, derives a local
view-model from the decoded account payload, runs a keep-alive loop and a
peer-liveness check, and manages a single account-change subscription.

External collaborators (the cbor library, the Solana connection, the event
emitter) are modelled at their interface: the result of the external
cbor.decode call is carried alongside the raw bytes in AccountInfo, the
delivery outcome of a transaction is a Bool parameter, and event emission
is a Bool in the result.
-/

namespace TTT

/-- One cell of the decoded board, and entries of the derived board, are
plain one-character strings in the JS code; we keep them as String. -/
abbrev Cell := String

/-- The view-model stored in TicTacToe.state (type TicTacToeGameState in
the JS file, lines 28-38). playerX and playerO are Option because the
constructor initializes both to null. -/
structure TicTacToeGameState where
  gameState : String
  inProgress : Bool
  myTurn : Bool
  draw : Bool
  winner : Bool
  playerX : Option (List Nat)
  playerO : Option (List Nat)
  board : List Cell
  keep_alive : Int × Int
  deriving Repr, DecidableEq

/-- The "Game" record produced by the external cbor.decode: the fields the
JS code reads from tttAccount[1] (state, player_x, player_o, board,
keep_alive). -/
structure CborGame where
  state : String
  player_x : List Nat
  player_o : Option (List Nat)
  board : List Cell
  keep_alive : Int × Int
  deriving Repr, DecidableEq

/-- An account snapshot as the client observes it: the raw userdata bytes
(used for the length prefix and the length check) together with the value
the external cbor library decodes from userdata.slice(4): the top-level
tag tttAccount[0] and the game record tttAccount[1]. -/
structure AccountInfo where
  userdata : List Nat
  decodedTag : String
  decodedGame : CborGame
  deriving Repr, DecidableEq

/-- The error conditions thrown by the client code. rangeError models the
Buffer.readUInt32LE out-of-range throw on a buffer shorter than 4 bytes;
malformedState is the "Invalid game state length" throw; unexpectedTag is
the "Invalid game state type" throw; unknownPhase is the "Unhandled game
state" throw. -/
inductive TTTError where
  | rangeError
  | malformedState
  | unexpectedTag (tag : String)
  | unknownPhase (s : String)
  deriving Repr, DecidableEq

/-- Buffer.readUInt32LE(0): the 4-byte little-endian unsigned prefix; none
when the buffer has fewer than 4 bytes (the Buffer API throws a range
error there). Bytes carry values below 2^8, enforced with % 256. -/
def readUInt32LE (b : List Nat) : Option Nat :=
  match b with
  | b0 :: b1 :: b2 :: b3 :: _ =>
      some (b0 % 256 + 256 * (b1 % 256) + 65536 * (b2 % 256) + 16777216 * (b3 % 256))
  | _ => none

/-- The session state of one TicTacToe instance: the fields of the JS
class that the modelled operations read or write (abandoned, isX, state,
_changeSubscriptionId). -/
structure Session where
  abandoned : Bool
  isX : Bool
  state : TicTacToeGameState
  changeSubscriptionId : Option Nat
  deriving Repr, DecidableEq

namespace TicTacToe

/-- The initial this.state set by the constructor (lines 61-71). -/
def initialState : TicTacToeGameState :=
  { gameState := "Waiting", inProgress := false, myTurn := false,
    draw := false, winner := false, playerX := none, playerO := none,
    board := [], keep_alive := (0, 0) }

/-- The constructor (lines 54-87): abandoned false, no subscription held. -/
def new (isX : Bool) : Session :=
  { abandoned := false, isX := isX, state := initialState,
    changeSubscriptionId := none }

/-- Static TicTacToe._getGameState (lines 237-285). Reads the length
prefix, throws when length + 4 >= userdata.length, checks the top-level
tag against "Game", extracts the game fields (mapping the board cell "F"
to " "), and sets inProgress / draw from the phase via the switch, with
unknown phases throwing. -/
def _getGameState (accountInfo : AccountInfo) : Except TTTError TicTacToeGameState :=
  match readUInt32LE accountInfo.userdata with
  | none => .error .rangeError
  | some length =>
    if length + 4 ≥ accountInfo.userdata.length then
      .error .malformedState
    else if accountInfo.decodedTag ≠ "Game" then
      .error (.unexpectedTag accountInfo.decodedTag)
    else
      let game := accountInfo.decodedGame
      let state : TicTacToeGameState :=
        { gameState := game.state, inProgress := false, myTurn := false,
          draw := false, winner := false,
          playerX := some game.player_x, playerO := game.player_o,
          board := game.board.map (fun i => if i = "F" then " " else i),
          keep_alive := game.keep_alive }
      if game.state = "Waiting" then .ok state
      else if game.state = "XMove" ∨ game.state = "OMove" then
        .ok { state with inProgress := true }
      else if game.state = "Draw" then .ok { state with draw := true }
      else if game.state = "XWon" ∨ game.state = "OWon" then .ok state
      else .error (.unknownPhase game.state)

/-- Static TicTacToe.getGameState (lines 226-232): fetches the account
snapshot (external connection.getAccountInfo) and applies _getGameState
to it. -/
def getGameState (accountInfo : AccountInfo) : Except TTTError TicTacToeGameState :=
  _getGameState accountInfo

/-- isPeerAlive (lines 287-291): reads the peer keep-alive marker (index 1
when this player is X, index 0 otherwise) and compares against a strict
10000 ms window. -/
def isPeerAlive (s : Session) (now : Int) : Bool :=
  let peerKeepAlive := if s.isX then s.state.keep_alive.2 else s.state.keep_alive.1
  now - peerKeepAlive < 10000

/-- The switch statement of _onAccountChange (lines 304-323) that sets
myTurn / winner on the freshly decoded state from the local isX flag;
none models the default throw for an unhandled game state. -/
def deriveFlags (st : TicTacToeGameState) (isX : Bool) : Option TicTacToeGameState :=
  if st.gameState = "Waiting" then some st
  else if st.gameState = "XMove" then some { st with myTurn := isX }
  else if st.gameState = "OMove" then some { st with myTurn := !isX }
  else if st.gameState = "Draw" then some st
  else if st.gameState = "XWon" then some { st with winner := isX }
  else if st.gameState = "OWon" then some { st with winner := !isX }
  else none

/-- _onAccountChange (lines 298-330). Returns the session after the call,
the error thrown (if any), and whether the change event was emitted. A
throw inside _getGameState happens before this.state is assigned, so the
session is returned unchanged there; the default throw of the switch
happens after the assignment, so that (unreachable) branch keeps the
assigned state. After the switch, if the new state is inProgress and the
peer is not alive, inProgress is forced false and abandoned set true;
finally the change event is emitted. -/
def _onAccountChange (s : Session) (accountInfo : AccountInfo) (now : Int) :
    Session × Option TTTError × Bool :=
  match _getGameState accountInfo with
  | .error e => (s, some e, false)
  | .ok st =>
    match deriveFlags st s.isX with
    | none => ({ s with state := st }, some (.unknownPhase st.gameState), false)
    | some st1 =>
      let s1 : Session := { s with state := st1 }
      if s1.state.inProgress && !(isPeerAlive s1 now) then
        ({ s1 with state := { s1.state with inProgress := false }, abandoned := true },
         none, true)
      else
        (s1, none, true)

/-- The command built by keepAlive (lines 180-184): tag "KeepAlive" and
either the explicit override or the current time. -/
def keepAliveCmd (whenArg : Option Int) (now : Int) : String × Int :=
  ("KeepAlive", match whenArg with | none => now | some w => w)

/-- Result of abandon(): the session afterwards, the command it sent, and
whether the abandon promise itself rejected (the keepAlive send is
awaited with no try/catch inside abandon, so a delivery failure
propagates to the caller). -/
structure AbandonOutcome where
  session : Session
  sentCmd : String × Int
  rejected : Bool
  deriving Repr, DecidableEq

/-- abandon (lines 198-201): sets this.abandoned = true, then awaits
keepAlive(0); deliveryOk is the external transaction outcome. -/
def abandon (s : Session) (now : Int) (deliveryOk : Bool) : AbandonOutcome :=
  let s1 : Session := { s with abandoned := true }
  { session := s1, sentCmd := keepAliveCmd (some 0) now, rejected := !deliveryOk }

/-- The synchronous prefix of scheduleNextKeepAlive (lines 92-98): acquire
the account-change subscription only when none is held; newId is the
subscription id the external onAccountChange call would return. -/
def scheduleNextKeepAlive (s : Session) (newId : Nat) : Session :=
  match s.changeSubscriptionId with
  | none => { s with changeSubscriptionId := some newId }
  | some _ => s

/-- Result of one timer tick of the keep-alive loop: the session after
the tick, whether the subscription was released, whether the loop
terminated, and whether it rescheduled itself. -/
structure TickOutcome where
  session : Session
  released : Bool
  terminated : Bool
  rescheduled : Bool
  deriving Repr, DecidableEq

/-- The setTimeout callback of scheduleNextKeepAlive (lines 100-121): if
abandoned, release the subscription when held and exit; else if the game
state is in the literal list ["XWon", "OWin", "Draw"] (the string "OWin"
is written exactly as in the source), exit; else attempt keepAlive
(failures are caught and logged, so deliveryOk does not change the
control flow) and reschedule. -/
def keepAliveTick (s : Session) (_deliveryOk : Bool) : TickOutcome :=
  if s.abandoned then
    match s.changeSubscriptionId with
    | some _ =>
      { session := { s with changeSubscriptionId := none },
        released := true, terminated := true, rescheduled := false }
    | none =>
      { session := s, released := false, terminated := true, rescheduled := false }
  else if (["XWon", "OWin", "Draw"] : List String).contains s.state.gameState then
    { session := s, released := false, terminated := true, rescheduled := false }
  else
    { session := s, released := false, terminated := false, rescheduled := true }

end TicTacToe

/-! Sample inputs used by witnesses and counterexamples. -/

/-- A well-formed game record in a given phase: board of nine cells, both
players present, keep-alive markers at 0. -/
def sampleGame (phase : String) : CborGame :=
  { state := phase, player_x := [1, 2], player_o := some [3, 4],
    board := List.replicate 9 "F", keep_alive := (0, 0) }

/-- A well-formed account snapshot: 20-byte userdata whose length prefix
claims 10 payload bytes (10 + 4 < 20), tagged "Game". -/
def sampleAccount (phase : String) : AccountInfo :=
  { userdata := [10, 0, 0, 0] ++ List.replicate 16 0,
    decodedTag := "Game", decodedGame := sampleGame phase }

/-- An account snapshot whose length prefix reads 1, over a 5-byte buffer:
length + 4 equals the buffer size exactly. -/
def boundaryAccount : AccountInfo :=
  { userdata := [1, 0, 0, 0, 99], decodedTag := "Game",
    decodedGame := sampleGame "Waiting" }

/-- A session in phase OWon with the loop still live and a subscription
held. -/
def sessionOWon : Session :=
  { abandoned := false, isX := true,
    state := { TicTacToe.initialState with gameState := "OWon" },
    changeSubscriptionId := some 7 }

/-- An abandoned session that still holds a subscription. -/
def sessionAbandonedSub : Session :=
  { abandoned := true, isX := true, state := TicTacToe.initialState,
    changeSubscriptionId := some 3 }

/-- A session whose peer keep-alive marker (index 1, this player is X)
is 1. -/
def sessionPeer : Session :=
  { abandoned := false, isX := true,
    state := { TicTacToe.initialState with keep_alive := (0, 1) },
    changeSubscriptionId := none }

/-- The state _getGameState returns for sampleAccount "XMove". -/
def stXMove : TicTacToeGameState :=
  { gameState := "XMove", inProgress := true, myTurn := false,
    draw := false, winner := false, playerX := some [1, 2],
    playerO := some [3, 4], board := List.replicate 9 " ",
    keep_alive := (0, 0) }

/-- stXMove after the derivation switch for player X. -/
def vXMove : TicTacToeGameState :=
  { stXMove with myTurn := true }

/-- The state _getGameState returns for sampleAccount "XWon". -/
def stXWon : TicTacToeGameState :=
  { gameState := "XWon", inProgress := false, myTurn := false,
    draw := false, winner := false, playerX := some [1, 2],
    playerO := some [3, 4], board := List.replicate 9 " ",
    keep_alive := (0, 0) }

/-! Helper lemmas shared by several claim proofs. -/

/-- Shape of every state _getGameState returns: the phase is copied from
the record, myTurn and winner stay false, inProgress holds exactly for
XMove/OMove, draw exactly for Draw, and the phase is one of the six
recognized tags. -/
theorem getGameState_ok_shape (ai : AccountInfo) (st : TicTacToeGameState)
    (h : TicTacToe._getGameState ai = .ok st) :
    st.gameState = ai.decodedGame.state ∧
    st.myTurn = false ∧ st.winner = false ∧
    (st.inProgress = true ↔ (st.gameState = "XMove" ∨ st.gameState = "OMove")) ∧
    (st.draw = true ↔ st.gameState = "Draw") ∧
    (st.gameState = "Waiting" ∨ st.gameState = "XMove" ∨ st.gameState = "OMove" ∨
     st.gameState = "Draw" ∨ st.gameState = "XWon" ∨ st.gameState = "OWon") := by
  unfold TicTacToe._getGameState at h
  cases hb : readUInt32LE ai.userdata <;> rw [hb] at h
  · simp at h
  · simp only [] at h
    split_ifs at h with h1 h2 h3 h4 h5 h6 <;>
      simp only [Except.ok.injEq] at h <;> subst h <;> simp_all
    rcases h4 with h4 | h4 <;> simp_all

/-- C2 (amended): with a readable 4-byte prefix of value len, the decoder
fails with MalformedState exactly when len + 4 is greater than or equal to
the buffer size (so the boundary case len + 4 = size also fails), and in
that case the result does not depend on the decoded object payload at
all — the object decode is never consulted. -/
theorem c2_length_check (ai : AccountInfo) (len : Nat)
    (hr : readUInt32LE ai.userdata = some len) :
    (TicTacToe._getGameState ai = .error .malformedState ↔
      ai.userdata.length ≤ len + 4) ∧
    (ai.userdata.length ≤ len + 4 →
      ∀ t g, TicTacToe._getGameState
        { userdata := ai.userdata, decodedTag := t, decodedGame := g } =
        .error .malformedState) := by
  constructor
  · unfold TicTacToe._getGameState
    rw [hr]
    simp only []
    split_ifs with h1 h2 h3 h4 h5 h6 <;> simp_all
  · intro hle t g
    unfold TicTacToe._getGameState
    simp only []
    rw [hr]
    simp only []
    rw [if_pos (by omega)]

/-- C2 witness: the theorem applied to the boundary buffer
[1, 0, 0, 0, 99], whose prefix reads 1 and whose size is 1 + 4. -/
theorem c2_length_check_witness :
    TicTacToe._getGameState boundaryAccount = .error .malformedState := by
  have h := c2_length_check boundaryAccount 1 rfl
  exact h.1.mpr (by decide)

/-- C2 counterexample: a buffer where length + 4 equals the buffer size is
NOT decoded — the decoder throws MalformedState on it, contrary to the
claim that such a buffer is decoded. -/
theorem c2_counterexample :
    readUInt32LE boundaryAccount.userdata = some 1 ∧
    boundaryAccount.userdata.length = 1 + 4 ∧
    TicTacToe._getGameState boundaryAccount = .error .malformedState :=
  ⟨rfl, rfl, rfl⟩

/-- C8: for payloads that pass the length check, a top-level tag other
than "Game" fails with UnexpectedTag, a recognized tag with a phase
outside the six recognized phases fails with UnknownPhase, and an error
result never carries a game record. -/
theorem c8_tag_and_phase_errors (ai : AccountInfo) (len : Nat)
    (hr : readUInt32LE ai.userdata = some len)
    (hlen : len + 4 < ai.userdata.length) :
    (ai.decodedTag ≠ "Game" →
      TicTacToe._getGameState ai = .error (.unexpectedTag ai.decodedTag)) ∧
    (ai.decodedTag = "Game" →
      ¬(ai.decodedGame.state = "Waiting" ∨ ai.decodedGame.state = "XMove" ∨
        ai.decodedGame.state = "OMove" ∨ ai.decodedGame.state = "Draw" ∨
        ai.decodedGame.state = "XWon" ∨ ai.decodedGame.state = "OWon") →
      TicTacToe._getGameState ai = .error (.unknownPhase ai.decodedGame.state)) ∧
    (∀ e st, TicTacToe._getGameState ai = .error e →
      TicTacToe._getGameState ai ≠ .ok st) := by
  refine ⟨?_, ?_, ?_⟩
  · intro htag
    unfold TicTacToe._getGameState
    rw [hr]
    simp only []
    rw [if_neg (by omega), if_pos htag]
  · intro htag hphase
    push_neg at hphase
    obtain ⟨p1, p2, p3, p4, p5, p6⟩ := hphase
    unfold TicTacToe._getGameState
    rw [hr]
    simp only []
    rw [if_neg (by omega), if_neg (by simp [htag])]
    rw [if_neg p1, if_neg (by simp [p2, p3]), if_neg p4, if_neg (by simp [p5, p6])]
  · intro e st he hok
    rw [he] at hok
    exact Except.noConfusion hok

/-- C8 witness: the theorem applied to a wrong-tag snapshot and a
wrong-phase snapshot. -/
theorem c8_witness :
    TicTacToe._getGameState
      { userdata := [10, 0, 0, 0] ++ List.replicate 16 0,
        decodedTag := "Nope", decodedGame := sampleGame "Waiting" } =
      .error (.unexpectedTag "Nope") ∧
    TicTacToe._getGameState (sampleAccount "Banana") =
      .error (.unknownPhase "Banana") := by
  have h1 := c8_tag_and_phase_errors
    { userdata := [10, 0, 0, 0] ++ List.replicate 16 0,
      decodedTag := "Nope", decodedGame := sampleGame "Waiting" } 10 rfl (by decide)
  have h2 := c8_tag_and_phase_errors (sampleAccount "Banana") 10 rfl (by decide)
  exact ⟨h1.1 (by decide), h2.2.1 rfl (by decide)⟩

/-- C10: every record the public getGameState fetch path returns has
myTurn and winner false — for every phase, the XWon/OWon phases
included — while draw holds exactly for Draw and inProgress exactly for
XMove/OMove, set by the fetch path itself. -/
theorem c10_fetch_path_flags (ai : AccountInfo) (st : TicTacToeGameState)
    (h : TicTacToe.getGameState ai = .ok st) :
    st.myTurn = false ∧ st.winner = false ∧
    (st.draw = true ↔ st.gameState = "Draw") ∧
    (st.inProgress = true ↔ (st.gameState = "XMove" ∨ st.gameState = "OMove")) := by
  have h2 : TicTacToe._getGameState ai = .ok st := h
  obtain ⟨_, hmt, hw, hip, hd, _⟩ := getGameState_ok_shape ai st h2
  exact ⟨hmt, hw, hd, hip⟩

/-- C10 witness: the theorem applied to an XWon snapshot: even for a won
game the fetch path reports myTurn and winner false. -/
theorem c10_fetch_path_flags_witness :
    stXWon.gameState = "XWon" ∧ stXWon.myTurn = false ∧ stXWon.winner = false := by
  have h := c10_fetch_path_flags (sampleAccount "XWon") stXWon (by rfl)
  exact ⟨rfl, h.1, h.2.1⟩

/-- C5: the phase table of the derivation. For every successfully decoded
record, after the myTurn/winner switch: Waiting leaves every derived flag
false, XMove sets myTurn to isX, OMove to not isX, Draw sets draw, XWon
sets winner to isX, OWon to not isX, and inProgress holds exactly for
XMove/OMove (the spec names the phases XTurn/OTurn). -/
theorem c5_phase_table (ai : AccountInfo) (isX : Bool) (st v : TicTacToeGameState)
    (hok : TicTacToe._getGameState ai = .ok st)
    (hv : TicTacToe.deriveFlags st isX = some v) :
    (st.gameState = "Waiting" →
      v.inProgress = false ∧ v.myTurn = false ∧ v.draw = false ∧ v.winner = false) ∧
    (st.gameState = "XMove" → v.myTurn = isX) ∧
    (st.gameState = "OMove" → v.myTurn = !isX) ∧
    (st.gameState = "Draw" → v.draw = true) ∧
    (st.gameState = "XWon" → v.winner = isX) ∧
    (st.gameState = "OWon" → v.winner = !isX) ∧
    (v.inProgress = true ↔ (st.gameState = "XMove" ∨ st.gameState = "OMove")) := by
  obtain ⟨hgs, hmt, hw, hip, hd, hmem⟩ := getGameState_ok_shape ai st hok
  clear hgs hmem hok
  unfold TicTacToe.deriveFlags at hv
  split_ifs at hv with h1 h2 h3 h4 h5 h6 <;>
    simp only [Option.some.injEq] at hv <;> subst hv <;> simp_all

/-- C5 witness: the theorem applied to an XMove snapshot seen by player X:
myTurn true, inProgress true. -/
theorem c5_phase_table_witness :
    vXMove.myTurn = true ∧
    (vXMove.inProgress = true ↔ (stXMove.gameState = "XMove" ∨ stXMove.gameState = "OMove")) := by
  have h := c5_phase_table (sampleAccount "XMove") true stXMove vXMove (by rfl) (by rfl)
  exact ⟨h.2.1 rfl, h.2.2.2.2.2.2⟩

/-- C6: the liveness monitor reads the peer slot (index 1 for player X,
index 0 for player O) and reports alive exactly when now - peerMarker is
strictly below 10000; a marker of now - 9999 is alive and a marker of
now - 10000 is not. -/
theorem c6_liveness_boundary (s : Session) (now : Int) :
    (TicTacToe.isPeerAlive s now = true ↔
      now - (if s.isX then s.state.keep_alive.2 else s.state.keep_alive.1) < 10000) ∧
    ((if s.isX then s.state.keep_alive.2 else s.state.keep_alive.1) = now - 9999 →
      TicTacToe.isPeerAlive s now = true) ∧
    ((if s.isX then s.state.keep_alive.2 else s.state.keep_alive.1) = now - 10000 →
      TicTacToe.isPeerAlive s now = false) := by
  unfold TicTacToe.isPeerAlive
  refine ⟨by simp, ?_, ?_⟩ <;> intro h <;> rw [h] <;> simp

/-- C6 witness: the theorem applied to a player-X session with peer
marker 1: alive at now = 10000 (marker = now - 9999), not alive at
now = 10001 (marker = now - 10000). -/
theorem c6_liveness_boundary_witness :
    TicTacToe.isPeerAlive sessionPeer 10000 = true ∧
    TicTacToe.isPeerAlive sessionPeer 10001 = false := by
  have h1 := c6_liveness_boundary sessionPeer 10000
  have h2 := c6_liveness_boundary sessionPeer 10001
  exact ⟨h1.2.1 (by decide), h2.2.2 (by decide)⟩

/-- C1: evaluation of the keep-alive tick at the failing input. A live
(not abandoned) session whose phase is OWon does NOT terminate the loop:
the terminal-phase test compares against the literal list
["XWon", "OWin", "Draw"], and "OWon" is not in it, so the tick
reschedules itself and keeps sending keep-alives. (The state type in the
same file only admits "OWon"; "OWin" can never occur, so the comparison
is a dead branch — contradicting both the spec and the file's own type
declaration.) -/
theorem c1_owon_tick_reschedules :
    (["XWon", "OWin", "Draw"] : List String).contains "OWon" = false ∧
    (TicTacToe.keepAliveTick sessionOWon true).terminated = false ∧
    (TicTacToe.keepAliveTick sessionOWon true).rescheduled = true ∧
    (TicTacToe.keepAliveTick sessionOWon true).released = false :=
  ⟨rfl, rfl, rfl, rfl⟩

/-- C3 (amended): abandon() first sets abandoned to true, then sends a
KeepAlive command with timestamp 0; the abandoned flag is true afterwards
regardless of delivery outcome, but a delivery failure propagates to
abandon's caller (the keepAlive send is awaited without a try/catch
inside abandon), so abandon itself rejects exactly when delivery fails. -/
theorem c3_abandon_behavior (s : Session) (now : Int) (deliveryOk : Bool) :
    (TicTacToe.abandon s now deliveryOk).session = { s with abandoned := true } ∧
    (TicTacToe.abandon s now deliveryOk).session.abandoned = true ∧
    (TicTacToe.abandon s now deliveryOk).sentCmd = ("KeepAlive", 0) ∧
    (TicTacToe.abandon s now deliveryOk).rejected = !deliveryOk :=
  ⟨rfl, rfl, rfl, rfl⟩

/-- C3 counterexample: when the keep-alive delivery fails, abandon itself
fails (its promise rejects) — the failure is not swallowed or merely
logged, contrary to the claim; the abandoned flag still stays true. -/
theorem c3_counterexample :
    (TicTacToe.abandon (TicTacToe.new true) 5 false).rejected = true ∧
    (TicTacToe.abandon (TicTacToe.new true) 5 false).session.abandoned = true :=
  ⟨rfl, rfl⟩

/-- C4: when an update decodes a record whose derived view is inProgress
and the liveness monitor reports the peer dead, the stored view's
inProgress is forced to false and abandoned becomes true; and abandoned
is one-way: once true, every modelled operation (account-change handler,
abandon, keep-alive tick, subscription acquisition) leaves it true. -/
theorem c4_abandoned_oneway (s : Session) (ai : AccountInfo) (now : Int)
    (deliveryOk : Bool) (newId : Nat) :
    (∀ st st1, TicTacToe._getGameState ai = .ok st →
      TicTacToe.deriveFlags st s.isX = some st1 →
      st1.inProgress = true →
      TicTacToe.isPeerAlive { s with state := st1 } now = false →
      (TicTacToe._onAccountChange s ai now).1.state.inProgress = false ∧
      (TicTacToe._onAccountChange s ai now).1.abandoned = true) ∧
    (s.abandoned = true →
      (TicTacToe._onAccountChange s ai now).1.abandoned = true ∧
      (TicTacToe.abandon s now deliveryOk).session.abandoned = true ∧
      (TicTacToe.keepAliveTick s deliveryOk).session.abandoned = true ∧
      (TicTacToe.scheduleNextKeepAlive s newId).abandoned = true) := by
  constructor
  · intro st st1 hok hd hip hdead
    unfold TicTacToe._onAccountChange
    rw [hok]
    simp only []
    rw [hd]
    simp only [hip, hdead]
    simp
  · intro hab
    refine ⟨?_, rfl, ?_, ?_⟩
    · unfold TicTacToe._onAccountChange
      cases TicTacToe._getGameState ai with
      | error e => simpa using hab
      | ok st =>
        simp only []
        cases TicTacToe.deriveFlags st s.isX with
        | none => simpa using hab
        | some st1 =>
          simp only []
          split_ifs <;> simp [hab]
    · unfold TicTacToe.keepAliveTick
      rw [if_pos hab]
      cases s.changeSubscriptionId <;> simpa using hab
    · unfold TicTacToe.scheduleNextKeepAlive
      cases s.changeSubscriptionId <;> simpa using hab

/-- C4 witness: a fresh player-X session receiving an XMove record whose
peer marker is stale at now = 20000: the stored view ends not inProgress
and the session abandoned; and an already-abandoned session stays
abandoned across a tick. -/
theorem c4_abandoned_oneway_witness :
    ((TicTacToe._onAccountChange (TicTacToe.new true) (sampleAccount "XMove") 20000).1.state.inProgress = false ∧
     (TicTacToe._onAccountChange (TicTacToe.new true) (sampleAccount "XMove") 20000).1.abandoned = true) ∧
    (TicTacToe.keepAliveTick sessionAbandonedSub true).session.abandoned = true := by
  have h1 := (c4_abandoned_oneway (TicTacToe.new true) (sampleAccount "XMove") 20000 true 0).1
    stXMove vXMove (by rfl) (by rfl) (by rfl) (by rfl)
  have h2 := (c4_abandoned_oneway sessionAbandonedSub (sampleAccount "XMove") 0 true 0).2 rfl
  exact ⟨h1, h2.2.2.1⟩

/-- C7: the change subscription is acquired at most once — entering the
scheduling entry point with a subscription held leaves the session
unchanged — and released exactly once on the abandonment path: a tick
reports released only when the session is abandoned and a subscription is
held, it clears the handle, and the immediately following tick can not
release again. -/
theorem c7_subscription_once (s : Session) (i newId : Nat) (dok dok2 : Bool) :
    (s.changeSubscriptionId = some i → TicTacToe.scheduleNextKeepAlive s newId = s) ∧
    ((TicTacToe.keepAliveTick s dok).released = true →
      s.abandoned = true ∧ s.changeSubscriptionId ≠ none ∧
      (TicTacToe.keepAliveTick s dok).session.changeSubscriptionId = none) ∧
    ((TicTacToe.keepAliveTick s dok).released = true →
      (TicTacToe.keepAliveTick (TicTacToe.keepAliveTick s dok).session dok2).released = false) := by
  refine ⟨?_, ?_, ?_⟩
  · intro hsub
    unfold TicTacToe.scheduleNextKeepAlive
    rw [hsub]
  · intro hrel
    unfold TicTacToe.keepAliveTick at hrel ⊢
    split_ifs at hrel ⊢ with hab
    cases hcs : s.changeSubscriptionId <;> rw [hcs] at hrel <;> simp_all
  · intro hrel
    unfold TicTacToe.keepAliveTick at hrel ⊢
    split_ifs at hrel ⊢ with hab
    all_goals cases hcs : s.changeSubscriptionId <;> rw [hcs] at hrel <;> simp_all

/-- C7 witness: an abandoned session holding subscription 3: re-entering
the scheduler is a no-op, the tick clears the handle, and a second tick
does not release again. -/
theorem c7_subscription_once_witness :
    TicTacToe.scheduleNextKeepAlive sessionAbandonedSub 9 = sessionAbandonedSub ∧
    (TicTacToe.keepAliveTick sessionAbandonedSub true).session.changeSubscriptionId = none ∧
    (TicTacToe.keepAliveTick (TicTacToe.keepAliveTick sessionAbandonedSub true).session true).released = false := by
  have h := c7_subscription_once sessionAbandonedSub 3 9 true true
  exact ⟨h.1 rfl, (h.2.1 rfl).2.2, h.2.2 rfl⟩

/-- C9: when decoding the incoming snapshot fails (bad length prefix,
wrong top-level tag, or unknown phase), the change handler leaves the
session — stored view and abandoned flag — exactly as it was, rethrows
the decode error, and emits no change event. -/
theorem c9_update_atomicity (s : Session) (ai : AccountInfo) (now : Int)
    (e : TTTError) (h : TicTacToe._getGameState ai = .error e) :
    TicTacToe._onAccountChange s ai now = (s, some e, false) := by
  unfold TicTacToe._onAccountChange
  rw [h]

/-- C9 witness: the handler applied to the malformed boundary buffer
leaves a fresh player-O session untouched and emits nothing. -/
theorem c9_update_atomicity_witness :
    TicTacToe._onAccountChange (TicTacToe.new false) boundaryAccount 0 =
      (TicTacToe.new false, some .malformedState, false) :=
  c9_update_atomicity (TicTacToe.new false) boundaryAccount 0 .malformedState rfl

end TTT
